import Mathlib

set_option linter.unusedVariables false

/-!
Verification of the sinner frame-processing core against its source.

The definitions below are a shallow embedding of the Python sources:

* sinner/models/framebuffer/FrameDirectoryBuffer.py
* sinner/models/framebuffer/FrameMemoryBuffer.py
* sinner/server/FrameProcessingServer.py
* sinner/server/api/ZMQServerAPI.py
* sinner/handlers/frame/CV2VideoHandler.py
* sinner/handlers/writers/BaseImageWriter.py (with PNGWriter/JPEGWriter)

Conventions: Python ints are embedded as Int (or Nat where the source value
is an index or byte count that is provably non-negative); file-system and
codec effects are passed in as explicit function parameters (pathEx for
os.path.exists, read for read_from_image, writeOk for a writer call result);
an exception raised by a Python function is an explicit variant of the
result type of its embedding.
-/

/-- sinner/models/NumberedFrame.py (referenced by the buffer sources): a
produced frame. The pixel buffer is abstracted to a byte list; frame.nbytes
of the numpy array is the length of that list. -/
structure NumberedFrame where
  index : Nat
  frame : List Nat
  deriving Repr, DecidableEq

def NumberedFrame.nbytes (f : NumberedFrame) : Nat := f.frame.length

/-- State of FrameDirectoryBuffer (FrameDirectoryBuffer.py): the _loaded
flag, the _indices list and the inherited FrameBufferInterface._miss
counter (a Python int). The path-name fields only determine which files are
touched and are absorbed into the pathEx/read/writeOk parameters. -/
structure DirState where
  loaded : Bool
  indices : List Nat
  miss : Int
  deriving Repr, DecidableEq

/-- FrameDirectoryBuffer.has_index: index in self._indices. -/
def dir_has_index (st : DirState) (index : Nat) : Bool :=
  st.indices.contains index

/-- FrameDirectoryBuffer.add_frame, with the result of
self._writer.write(...) passed as writeOk. Returns the new state and a flag
that is true exactly when the call raises an exception to its caller
(the source line: raise Exception("Error saving frame: ...")).
When not loaded the source returns early; on a successful write the frame
index is appended to _indices. -/
def dir_add_frame (st : DirState) (f : NumberedFrame) (writeOk : Bool) : DirState × Bool :=
  if st.loaded = false then (st, false)
  else if writeOk = false then (st, true)
  else ({ st with indices := st.indices ++ [f.index] }, false)

/-- The for-loop of FrameDirectoryBuffer.get_frame over
range(index - 1, 0, -1): the first argument of the recursion is the current
candidate (the loop visits prev, prev-1, ..., 1 and never 0), the second is
the current value of self._miss. Inside the loop body the source assigns
self._miss = index - previous_number before read_from_image runs, so a
failing read (read = none, the caught exception) still leaves that
assignment behind and the loop continues. -/
def scan_previous (indices : List Nat) (pathEx : Nat → Bool) (read : Nat → Option (List Nat))
    (index : Nat) : Nat → Int → Int × Option NumberedFrame
  | 0, miss => (miss, none)
  | prev + 1, miss =>
    if indices.contains (prev + 1) && pathEx (prev + 1) then
      match read (prev + 1) with
      | some data => ((index : Int) - ((prev + 1 : Nat) : Int), some ⟨prev + 1, data⟩)
      | none => scan_previous indices pathEx read index prev ((index : Int) - ((prev + 1 : Nat) : Int))
    else scan_previous indices pathEx read index prev miss

/-- FrameDirectoryBuffer.get_frame. On the exact-hit branch the source sets
self._miss = 0 and then reads the file; a read exception is swallowed and
the function falls through to return None (the elif is not entered). On a
miss with return_previous it runs the downward scan. -/
def dir_get_frame (st : DirState) (pathEx : Nat → Bool) (read : Nat → Option (List Nat))
    (index : Nat) (return_previous : Bool) : DirState × Option NumberedFrame :=
  if st.loaded = false then (st, none)
  else if dir_has_index st index then
    match read index with
    | some data => ({ st with miss := 0 }, some ⟨index, data⟩)
    | none => ({ st with miss := 0 }, none)
  else if return_previous then
    let r := scan_previous st.indices pathEx read index (index - 1) st.miss
    ({ st with miss := r.1 }, r.2)
  else (st, none)

/-- Update of a Python dict entry, embedded on an association list: assign
d[k] = v (any earlier binding of k is replaced). -/
def assocSet (l : List (Nat × α)) (k : Nat) (v : α) : List (Nat × α) :=
  (k, v) :: l.filter (fun p => p.1 ≠ k)

/-- Lookup of a Python dict entry on an association list. -/
def assocGet (l : List (Nat × α)) (k : Nat) : Option α :=
  match l.find? (fun p => p.1 = k) with
  | some p => some p.2
  | none => none

/-- State of FrameMemoryBuffer (FrameMemoryBuffer.py): the inherited
FrameDirectoryBuffer state plus _buffer_size_bytes, _memory_buffer,
_frame_sizes, _current_buffer_size_bytes and _disk_write_status. -/
structure MemState where
  dir : DirState
  bufferSizeBytes : Nat
  memoryBuffer : List (Nat × NumberedFrame)
  frameSizes : List (Nat × Nat)
  currentBufferSizeBytes : Nat
  diskWriteStatus : List (Nat × Bool)
  deriving Repr, DecidableEq

/-- A fresh FrameMemoryBuffer(temp_dir, buffer_size_bytes) after
load(source, target, frames_count) on an empty preview directory. -/
def mem_init (bufferSizeBytes : Nat) : MemState :=
  { dir := { loaded := true, indices := [], miss := 0 }
    bufferSizeBytes := bufferSizeBytes
    memoryBuffer := []
    frameSizes := []
    currentBufferSizeBytes := 0
    diskWriteStatus := [] }

/-- Outcome of FrameMemoryBuffer.add_frame.

blocked: the while-loop condition
current_buffer_size_bytes + frame_size > buffer_size_bytes held, so the
call sits in self._buffer_condition.wait(). The only notifiers are
get_frame (after popping a memory entry) and flush; when
buffer_size_bytes = 0 and the frame size is positive the condition stays
true at every wake-up (the byte counter never goes below 0), so the call
never proceeds.

returnedNoWrite: the early return inside the indices lock (not loaded):
the frame is left in the memory buffer and no disk write is submitted.

submitted: the call returned normally after submitting
_save_frame_to_disk to the executor. -/
inductive MemAddResult where
  | blocked
  | returnedNoWrite (st : MemState)
  | submitted (st : MemState)
  deriving Repr, DecidableEq

/-- FrameMemoryBuffer.add_frame, straight-line. frame_size is
frame.frame.nbytes. The frame and its size are recorded in the memory
dicts, the index is appended to the inherited _indices list (before any
disk write happens), _disk_write_status[index] is set to False and the
disk write is submitted. -/
def mem_add_frame (st : MemState) (f : NumberedFrame) : MemAddResult :=
  let frame_size := f.nbytes
  if st.bufferSizeBytes < st.currentBufferSizeBytes + frame_size then .blocked
  else
    let st1 : MemState :=
      { st with
        memoryBuffer := assocSet st.memoryBuffer f.index f
        frameSizes := assocSet st.frameSizes f.index frame_size
        currentBufferSizeBytes := st.currentBufferSizeBytes + frame_size }
    if st1.dir.loaded = false then .returnedNoWrite st1
    else
      let st2 : MemState :=
        if st1.dir.indices.contains f.index then st1
        else { st1 with dir := { st1.dir with indices := st1.dir.indices ++ [f.index] } }
      .submitted { st2 with diskWriteStatus := assocSet st2.diskWriteStatus f.index false }

/-- FrameMemoryBuffer._save_frame_to_disk run to completion for frame f,
with the result of write_to_image passed as writeOk. On success the status
entry is set to True; when write_to_image returns False the source logs
and returns leaving the entry at False, and when it raises the except
block stores False — both failure modes leave the entry at False, embedded
as an explicit store. Every exception is caught inside this method, so it
never raises, and it never touches the _indices list. -/
def save_frame_to_disk (st : MemState) (f : NumberedFrame) (writeOk : Bool) : MemState :=
  if writeOk then { st with diskWriteStatus := assocSet st.diskWriteStatus f.index true }
  else { st with diskWriteStatus := assocSet st.diskWriteStatus f.index false }

/-- FrameMemoryBuffer.has_index: the memory buffer first, then the
inherited index list (super().has_index). -/
def mem_has_index (st : MemState) (index : Nat) : Bool :=
  if (assocGet st.memoryBuffer index).isSome then true
  else dir_has_index st.dir index

/-- The state an add_frame call hands to the executor-submitted disk
write, when the call returns normally with a write submitted. -/
def submitted_state : MemAddResult → Option MemState
  | .submitted st => some st
  | _ => none

/-- The Python built-in int() applied to a float/ratio: truncation toward
zero. The moving averages the scheduler feeds it are embedded as exact
rationals. -/
def pyInt (q : ℚ) : Int :=
  if 0 ≤ q then ⌊q⌋ else ⌈q⌉

/-- The per-tick inputs the scheduling loop reads from the timeline and
the moving averages (FrameProcessingServer._process_frames, lines 466-471):
self._average_frame_skip.get_average(), TimeLine.last_added_index,
TimeLine.last_requested_index and TimeLine.current_frame_miss. -/
structure TickInput where
  avg : ℚ
  lastAdded : Int
  lastRequested : Int
  miss : Int

/-- The processing_delta update of FrameProcessingServer._process_frames:

if last_added > last_requested + miss and processing_delta > avg:
processing_delta -= 1; elif last_added < last_requested:
processing_delta += 1. The first branch compares the delta against the
average frame skip, the second does not. -/
def delta_update (i : TickInput) (processing_delta : Int) : Int :=
  if i.lastRequested + i.miss < i.lastAdded ∧ i.avg < (processing_delta : ℚ) then
    processing_delta - 1
  else if i.lastAdded < i.lastRequested then processing_delta + 1
  else processing_delta

/-- step = int(avg_frame_skip) + processing_delta; if step < 1: step = 1
(FrameProcessingServer._process_frames, lines 472-474). -/
def sched_step (avg : ℚ) (processing_delta : Int) : Int :=
  let step := pyInt avg + processing_delta
  if step < 1 then 1 else step

/-- The loop variables of FrameProcessingServer._process_frames that one
scheduling tick updates: next_frame and processing_delta. -/
structure SchedState where
  nextFrame : Int
  processingDelta : Int
  deriving Repr, DecidableEq

/-- One tick of the scheduling loop without a rewind signal: update
processing_delta, then next_frame += step. -/
def sched_tick (st : SchedState) (i : TickInput) : SchedState :=
  let d := delta_update i st.processingDelta
  { nextFrame := st.nextFrame + sched_step i.avg d, processingDelta := d }

/-- A sequence of rewind-free scheduling ticks. -/
def sched_run (st : SchedState) : List TickInput → SchedState
  | [] => st
  | i :: rest => sched_run (sched_tick st i) rest

/-- Exceptions a frame extraction can raise
(sinner/handlers/frame/CV2VideoHandler.py): EOutOfRange when the index is
past the frame count, or the generic Exception for a failed capture read. -/
inductive ExtractExc where
  | outOfRange
  | readFailed
  deriving Repr, DecidableEq

/-- CV2VideoHandler.extract_frame: raises EOutOfRange when
frame_number > self.fc, otherwise reads the capture (the read result is
passed in as the function read; None embeds a failed cv2 read, which the
source turns into a generic Exception). -/
def extract_frame (fc : Nat) (read : Nat → Option (List Nat)) (frame_number : Nat) :
    Except ExtractExc NumberedFrame :=
  if fc < frame_number then .error .outOfRange
  else
    match read frame_number with
    | none => .error .readFailed
    | some data => .ok ⟨frame_number, data⟩

/-- FrameProcessingServer._process_frame: extraction is wrapped in
try/except EOutOfRange, which logs and returns None; the scale/processor
steps and TimeLine.add_frame then run on the extracted frame and the frame
index is returned (the render-time component of the source tuple is
dropped). A generic read exception is not caught here and propagates. -/
def process_frame (fc : Nat) (read : Nat → Option (List Nat)) (frame_index : Nat) :
    Except ExtractExc (Option Nat) :=
  match extract_frame fc read frame_index with
  | .error .outOfRange => .ok none
  | .error e => .error e
  | .ok f => .ok (some f.index)

/-- The request kinds of RequestMessage that the embedded slice of
FrameProcessingServer._handle_request dispatches on; otherRequest stands
for any request type that reaches the final catch-all case. -/
inductive Request where
  | getStatus
  | setQuality (quality : Nat)
  | getQuality
  | getMetadata
  | getFrame (position : Nat)
  | otherRequest
  deriving Repr, DecidableEq

/-- The fields of a ResponseMessage the embedded requests populate: the
ok/error discriminator and the kind-specific fields. -/
structure Response where
  ok : Bool
  quality : Option Nat := none
  renderResolution : Option (Nat × Nat) := none
  resolution : Option (Nat × Nat) := none
  framesCount : Option Nat := none
  payload : Option (List Nat) := none
  deriving Repr, DecidableEq

/-- The server state the embedded requests touch: _scale_quality and the
frame_handler capabilities (resolution, frame count, frame read). -/
structure ServerState where
  scaleQuality : Nat
  resolution : Nat × Nat
  fc : Nat
  read : Nat → Option (List Nat)

/-- FrameProcessingServer._handle_request on the embedded request slice.
The result is the Python outcome: ok (new state, response) for a normal
return, error for an exception escaping the handler — which happens on
GET_FRAME when frame_handler.extract_frame raises, since _handle_request
has no try/except around it.

SET_QUALITY assigns the quality setter (plain assignment to
_scale_quality); GET_QUALITY returns it; GET_METADATA computes
render_resolution as int(resolution * quality / 100) per dimension, which
is floor division for these non-negative percent values; the catch-all
case returns an error response (Not implemented). -/
def server_handle_request (st : ServerState) (req : Request) :
    Except ExtractExc (ServerState × Response) :=
  match req with
  | .getStatus => .ok (st, { ok := true })
  | .setQuality q => .ok ({ st with scaleQuality := q }, { ok := true })
  | .getQuality => .ok (st, { ok := true, quality := some st.scaleQuality })
  | .getMetadata =>
    .ok (st,
      { ok := true
        renderResolution := some
          (st.resolution.1 * st.scaleQuality / 100, st.resolution.2 * st.scaleQuality / 100)
        resolution := some st.resolution
        framesCount := some st.fc })
  | .getFrame position =>
    match extract_frame st.fc st.read position with
    | .error e => .error e
    | .ok f => .ok (st, { ok := true, payload := some f.frame })
  | .otherRequest => .ok (st, { ok := false })

/-- ZMQServerAPI._handle_request: an error response when no handler is set,
otherwise the configured handler (whose exceptions pass through). -/
def zmq_handle_request
    (handler : Option (ServerState → Request → Except ExtractExc (ServerState × Response)))
    (st : ServerState) (req : Request) : Except ExtractExc (ServerState × Response) :=
  match handler with
  | none => .ok (st, { ok := false })
  | some h => h st req

/-- One iteration of ZMQServerAPI._message_handler for one received
request. msg = none embeds a request whose deserialization raises. The
returned Option Response is what the iteration sends on the REP socket:
some r means exactly one reply r is sent; none means the iteration ended
in one of the except blocks, which only log and sleep — no reply is sent
for the received request. -/
def message_handler_step
    (handler : Option (ServerState → Request → Except ExtractExc (ServerState × Response)))
    (st : ServerState) (msg : Option Request) : ServerState × Option Response :=
  match msg with
  | none => (st, none)
  | some req =>
    match zmq_handle_request handler st req with
    | .ok (st1, resp) => (st1, some resp)
    | .error _ => (st, none)

/-- The Python built-in round() on an exact rational: nearest integer,
ties to the even neighbour. -/
def pyRound (q : ℚ) : Int :=
  let f := ⌊q⌋
  if q - f < 1 / 2 then f
  else if 1 / 2 < q - f then f + 1
  else if f % 2 = 0 then f else f + 1

/-- Python str.lower() on the format argument of BaseImageWriter.create,
embedded on the character list of the string. -/
def pyLower (s : String) : List Char :=
  s.data.map Char.toLower

/-- State of the PNGWriter singleton
(sinner/handlers/writers/PNGWriter.py): its compression_level attribute
(class default 3). -/
structure PNGWriterState where
  compression_level : Int
  deriving Repr, DecidableEq

/-- State of the JPEGWriter singleton
(sinner/handlers/writers/JPEGWriter.py): its quality attribute (class
default 95). -/
structure JPEGWriterState where
  quality : Int
  deriving Repr, DecidableEq

/-- The process-wide writer instances kept by the SingletonABCMeta
metaclass (sinner/Singleton.py): calling PNGWriter() or JPEGWriter()
returns these same objects. -/
structure WriterInstances where
  png : PNGWriterState
  jpeg : JPEGWriterState
  deriving Repr, DecidableEq

/-- PNGWriter._get_quality: round(100 - compression_level / 9 * 100). -/
def png_get_quality (s : PNGWriterState) : Int :=
  pyRound (100 - (s.compression_level : ℚ) / 9 * 100)

/-- PNGWriter._set_quality: compression_level = round((100 - value) / 100 * 9). -/
def png_set_quality (s : PNGWriterState) (value : Int) : PNGWriterState :=
  { compression_level := pyRound (((100 - value : Int) : ℚ) / 100 * 9) }

/-- The BaseImageWriter.quality setter: clamp to 0..100, then _set_quality. -/
def base_quality_clamp (value : Int) : Int :=
  max 0 (min 100 value)

/-- JPEGWriter._set_quality: quality = value. -/
def jpeg_set_quality (s : JPEGWriterState) (value : Int) : JPEGWriterState :=
  { quality := value }

/-- Result of BaseImageWriter.create: which writer class the returned
object is, together with the singleton instances after the call; or the
ValueError raised on an unsupported format. -/
inductive CreateResult where
  | ok (kind : Bool) (instances : WriterInstances)
  | valueError
  deriving Repr, DecidableEq

/-- BaseImageWriter.create(_format, quality). For png the source returns
the PNGWriter singleton immediately — before the trailing
if quality is not None: writer.quality = quality — so the quality argument
is never applied to it. For jpg/jpeg the writer falls through to that
assignment, which runs the clamping base setter. kind = true stands for
the PNGWriter, kind = false for the JPEGWriter. -/
def writer_create (inst : WriterInstances) (fmt : String) (quality : Option Int) :
    CreateResult :=
  if pyLower fmt = "png".data then .ok true inst
  else if pyLower fmt = "jpg".data ∨ pyLower fmt = "jpeg".data then
    match quality with
    | none => .ok false inst
    | some q => .ok false { inst with jpeg := jpeg_set_quality inst.jpeg (base_quality_clamp q) }
  else .valueError

/-- The singleton instances a create call results in, when it returns. -/
def created_instances : CreateResult → Option WriterInstances
  | .ok _ i => some i
  | .valueError => none

/-- The response of a _handle_request outcome, when no exception escaped. -/
def resp_of : Except ExtractExc (ServerState × Response) → Option Response
  | .ok (_, r) => some r
  | .error _ => none

/-- The quality field of the response of a _handle_request outcome. -/
def resp_quality (x : Except ExtractExc (ServerState × Response)) : Option Nat :=
  match resp_of x with
  | some r => r.quality
  | none => none

/-- The render_resolution field of the response of a _handle_request
outcome. -/
def resp_render (x : Except ExtractExc (ServerState × Response)) : Option (Nat × Nat) :=
  match resp_of x with
  | some r => r.renderResolution
  | none => none

/-- A concrete server state for witnesses: 800x600 target with 10 frames,
every capture read succeeding. -/
def sample_server_state : ServerState :=
  { scaleQuality := 100, resolution := (800, 600), fc := 10, read := fun n => some [n] }

/-- Helper: whenever the downward scan of get_frame returns a frame, the
final _miss is the requested index minus the returned index, and the
returned index lies in the scanned range 1..p (in particular it is never
0). -/
theorem scan_previous_spec (indices : List Nat) (pathEx : Nat → Bool)
    (read : Nat → Option (List Nat)) (index : Nat) :
    ∀ (p : Nat) (m m2 : Int) (f : NumberedFrame),
      scan_previous indices pathEx read index p m = (m2, some f) →
      m2 = (index : Int) - f.index ∧ 1 ≤ f.index ∧ f.index ≤ p := by
  intro p
  induction p with
  | zero => intro m m2 f h; simp [scan_previous] at h
  | succ n ih =>
    intro m m2 f h
    unfold scan_previous at h
    split at h
    · split at h
      · simp only [Prod.mk.injEq, Option.some.injEq] at h
        obtain ⟨h1, h2⟩ := h
        subst h2
        refine ⟨h1.symm, ?_, ?_⟩ <;> simp
      · have h3 := ih _ _ _ h
        exact ⟨h3.1, h3.2.1, by omega⟩
    · have h3 := ih _ _ _ h
      exact ⟨h3.1, h3.2.1, by omega⟩

/-- Helper: when no index of the list is a usable candidate below the
requested index (every stored index below it is 0), the downward scan
finds nothing. -/
theorem scan_previous_none (indices : List Nat) (pathEx : Nat → Bool)
    (read : Nat → Option (List Nat)) (index : Nat)
    (hz : ∀ j ∈ indices, j < index → j = 0) :
    ∀ (p : Nat) (m : Int), p < index →
      (scan_previous indices pathEx read index p m).2 = none := by
  intro p
  induction p with
  | zero => intro m hp; simp [scan_previous]
  | succ n ih =>
    intro m hp
    unfold scan_previous
    have hc : indices.contains (n + 1) = false := by
      by_contra hcc
      have hmem : (n + 1) ∈ indices := by
        have := Bool.not_eq_false _ |>.mp hcc
        simpa using this
      have := hz _ hmem (by omega)
      omega
    rw [hc]
    simp only [Bool.false_and, Bool.false_eq_true, if_false]
    exact ih _ (by omega)

/-- Claim C5: with exactly the frames 1, 5, 10 stored, get_frame(7) with
return_previous returns the frame with index 5 and records a miss of 2;
and in general, whenever FrameDirectoryBuffer.get_frame returns a frame,
the recorded miss equals the requested index minus the returned index —
which is 0 on an exact hit. -/
theorem miss_accounting :
    dir_get_frame ⟨true, [1, 5, 10], 0⟩ (fun _ => true) (fun n => some [n]) 7 true
      = (⟨true, [1, 5, 10], 2⟩, some ⟨5, [5]⟩)
    ∧ ∀ (st : DirState) (pathEx : Nat → Bool) (read : Nat → Option (List Nat))
        (index : Nat) (return_previous : Bool) (st2 : DirState) (f : NumberedFrame),
        dir_get_frame st pathEx read index return_previous = (st2, some f) →
        st2.miss = (index : Int) - f.index ∧ f.index ≤ index := by
  constructor
  · decide
  · intro st pathEx read index return_previous st2 f h
    unfold dir_get_frame at h
    split at h
    · simp at h
    · split at h
      · split at h
        · simp only [Prod.mk.injEq, Option.some.injEq] at h
          obtain ⟨h1, h2⟩ := h
          subst h2
          constructor
          · rw [← h1]; simp
          · simp
        · simp at h
      · split at h
        · simp only [Prod.mk.injEq] at h
          obtain ⟨h1, h2⟩ := h
          have h3 := scan_previous_spec st.indices pathEx read index (index - 1)
            st.miss ((scan_previous st.indices pathEx read index (index - 1) st.miss).1) f
            (by rw [← h2])
          constructor
          · rw [← h1]; exact h3.1
          · omega
        · simp at h

/-- Witness for the general part of miss_accounting at the concrete
instance of the claim: requested 7, returned 5, miss 2 = 7 - 5. -/
theorem miss_accounting_witness :
    (⟨true, [1, 5, 10], 2⟩ : DirState).miss = ((7 : Nat) : Int) - ((5 : Nat) : Int)
    ∧ (5 : Nat) ≤ 7 := by
  have h := miss_accounting.2 ⟨true, [1, 5, 10], 0⟩ (fun _ => true) (fun n => some [n])
    7 true ⟨true, [1, 5, 10], 2⟩ ⟨5, [5]⟩ (by decide)
  exact h

/-- Claim C9: the previous-frame fallback of FrameDirectoryBuffer.get_frame
scans range(index - 1, 0, -1), i.e. only indices index-1 down to 1 and
never index 0. Consequently a substituted (non-exact) frame always has
index at least 1, and when the only stored frame below the requested index
is frame 0, get_frame(index, return_previous = true) returns None instead
of frame 0. -/
theorem previous_scan_never_returns_zero (st : DirState) (pathEx : Nat → Bool)
    (read : Nat → Option (List Nat)) (index : Nat)
    (hge : 1 ≤ index) (hmiss : dir_has_index st index = false) :
    (∀ (st2 : DirState) (f : NumberedFrame),
        dir_get_frame st pathEx read index true = (st2, some f) →
        1 ≤ f.index ∧ f.index < index)
    ∧ ((∀ j ∈ st.indices, j < index → j = 0) →
        (dir_get_frame st pathEx read index true).2 = none) := by
  constructor
  · intro st2 f h
    unfold dir_get_frame at h
    split at h
    · simp at h
    · split at h
      · next hidx => rw [hmiss] at hidx; exact Bool.noConfusion hidx
      · split at h
        · simp only [Prod.mk.injEq] at h
          obtain ⟨h1, h2⟩ := h
          have h3 := scan_previous_spec st.indices pathEx read index (index - 1)
            st.miss ((scan_previous st.indices pathEx read index (index - 1) st.miss).1) f
            (by rw [← h2])
          omega
        · simp at h
  · intro hz
    unfold dir_get_frame
    split
    · rfl
    · split
      · next hidx => rw [hmiss] at hidx; exact Bool.noConfusion hidx
      · split
        · exact scan_previous_none st.indices pathEx read index hz (index - 1) st.miss (by omega)
        · simp_all

/-- Witness for previous_scan_never_returns_zero: with only frame 0 stored,
get_frame(3) with the fallback returns None. -/
theorem previous_scan_never_returns_zero_witness :
    (dir_get_frame ⟨true, [0], 0⟩ (fun _ => true) (fun n => some [n]) 3 true).2 = none := by
  have h := previous_scan_never_returns_zero ⟨true, [0], 0⟩ (fun _ => true)
    (fun n => some [n]) 3 (by decide) (by decide)
  exact h.2 (by decide)

/-- Claim C3 counterexample: a frame whose disk write fails does not fit
the claimed failure semantics. In FrameDirectoryBuffer.add_frame a failed
writer call raises an exception to the caller (second component true) —
refuting that no exception is raised to the caller of add_frame. -/
theorem dir_add_frame_failed_write_raises :
    dir_add_frame ⟨true, [], 0⟩ ⟨1, [0]⟩ false = (⟨true, [], 0⟩, true) := by decide

/-- Claim C3 (amended): when a disk write fails, the two buffer classes
behave differently and neither matches the claim in full.
FrameMemoryBuffer.add_frame appends the frame index to the index list and
returns before the asynchronous write runs; _save_frame_to_disk catches
every write failure, so nothing reaches a caller, but the index list still
holds the index, so has_index reports true after the failed write. In
FrameDirectoryBuffer.add_frame a failed synchronous write leaves the index
absent but raises an exception to the caller. -/
theorem add_frame_failed_write_semantics (st : MemState) (f : NumberedFrame)
    (hl : st.dir.loaded = true)
    (hspace : st.currentBufferSizeBytes + f.nbytes ≤ st.bufferSizeBytes) :
    ((submitted_state (mem_add_frame st f)).isSome = true
      ∧ ∀ st1 : MemState, submitted_state (mem_add_frame st f) = some st1 →
          f.index ∈ st1.dir.indices
          ∧ f.index ∈ (save_frame_to_disk st1 f false).dir.indices
          ∧ mem_has_index (save_frame_to_disk st1 f false) f.index = true)
    ∧ (∀ (dst : DirState) (g : NumberedFrame), dst.loaded = true →
        (dir_add_frame dst g false).2 = true
        ∧ (dir_add_frame dst g false).1.indices = dst.indices) := by
  constructor
  · constructor
    · unfold mem_add_frame
      rw [if_neg (by omega)]
      rw [if_neg (by simp [hl])]
      rfl
    · intro st1 h
      unfold mem_add_frame at h
      rw [if_neg (by omega)] at h
      rw [if_neg (by simp [hl])] at h
      simp only [submitted_state, Option.some.injEq] at h
      have hmem : f.index ∈ st1.dir.indices := by
        rw [← h]
        split
        · next hc => simpa using hc
        · simp
      refine ⟨hmem, ?_, ?_⟩
      · simpa [save_frame_to_disk] using hmem
      · unfold mem_has_index
        split
        · rfl
        · simp only [save_frame_to_disk, Bool.false_eq_true, if_false]
          simpa [dir_has_index] using hmem
  · intro dst g hld
    unfold dir_add_frame
    rw [if_neg (by simp [hld])]
    simp

/-- Witness for add_frame_failed_write_semantics at a concrete loaded
buffer with space for the frame. -/
theorem add_frame_failed_write_semantics_witness :
    (((submitted_state (mem_add_frame (mem_init 1024) ⟨1, [7, 7, 7]⟩)).isSome = true
      ∧ ∀ st1 : MemState,
          submitted_state (mem_add_frame (mem_init 1024) ⟨1, [7, 7, 7]⟩) = some st1 →
          (1 : Nat) ∈ st1.dir.indices
          ∧ (1 : Nat) ∈ (save_frame_to_disk st1 ⟨1, [7, 7, 7]⟩ false).dir.indices
          ∧ mem_has_index (save_frame_to_disk st1 ⟨1, [7, 7, 7]⟩ false) 1 = true)
    ∧ (∀ (dst : DirState) (g : NumberedFrame), dst.loaded = true →
        (dir_add_frame dst g false).2 = true
        ∧ (dir_add_frame dst g false).1.indices = dst.indices)) :=
  add_frame_failed_write_semantics (mem_init 1024) ⟨1, [7, 7, 7]⟩ (by decide) (by decide)

/-- Claim C2: with buffer_size_bytes = 0 the memory tier is not a
supported pure-disk mode in the source: for every frame of positive size,
FrameMemoryBuffer.add_frame finds
current_buffer_size_bytes + frame_size > 0 = buffer_size_bytes and sits in
the condition wait forever — it neither returns nor submits the disk
write, so the frame never reaches disk and has_index never becomes true.
The repository's own test suite
(tests/models/framebuffer/test_frame_memory_buffer.py,
test_add_frame_disk_only) and the spec expect the call to return with the
frame persisted to disk and the memory map untouched. -/
theorem zero_buffer_add_frame_blocks (st : MemState) (f : NumberedFrame)
    (h0 : st.bufferSizeBytes = 0) (hpos : 0 < f.nbytes) :
    mem_add_frame st f = .blocked := by
  unfold mem_add_frame
  rw [if_pos (by omega)]

/-- Witness for zero_buffer_add_frame_blocks: a loaded zero-limit buffer
and a 3-byte frame. -/
theorem zero_buffer_add_frame_blocks_witness :
    mem_add_frame (mem_init 0) ⟨1, [7, 7, 7]⟩ = .blocked :=
  zero_buffer_add_frame_blocks (mem_init 0) ⟨1, [7, 7, 7]⟩ (by decide) (by decide)

/-- Helper: every scheduling step is at least 1 (the source clamps
step < 1 to 1). -/
theorem sched_step_pos (avg : ℚ) (d : Int) : 1 ≤ sched_step avg d := by
  simp only [sched_step]
  split <;> omega

/-- Helper: the step through if-clamping equals a max. -/
theorem sched_step_eq_max (avg : ℚ) (d : Int) :
    sched_step avg d = max 1 (pyInt avg + d) := by
  simp only [sched_step]
  split <;> omega

/-- Helper: a single rewind-free tick strictly increases next_frame. -/
theorem sched_tick_nextFrame_lt (st : SchedState) (i : TickInput) :
    st.nextFrame < (sched_tick st i).nextFrame := by
  have h := sched_step_pos i.avg (delta_update i st.processingDelta)
  unfold sched_tick
  simp only
  omega

/-- Helper: a run of rewind-free ticks never decreases next_frame. -/
theorem sched_run_nextFrame_le (l : List TickInput) :
    ∀ st : SchedState, st.nextFrame ≤ (sched_run st l).nextFrame := by
  induction l with
  | nil => intro st; exact le_refl _
  | cons i rest ih =>
    intro st
    have h1 := sched_tick_nextFrame_lt st i
    have h2 := ih (sched_tick st i)
    unfold sched_run
    omega

/-- Claim C4: on a rewind-free tick the scheduling loop advances
next_frame by exactly max(1, floor(avg_frame_skip) + processing_delta)
computed with the already-updated delta — the average of positive
per-frame skip samples is non-negative, so the Python int() truncation is
the floor — and therefore the chosen next index strictly increases on
every tick of any rewind-free tick sequence. -/
theorem scheduler_forward_progress (st : SchedState) (i : TickInput) (havg : 0 ≤ i.avg) :
    (sched_tick st i).nextFrame
      = st.nextFrame + max 1 (⌊i.avg⌋ + delta_update i st.processingDelta)
    ∧ st.nextFrame < (sched_tick st i).nextFrame
    ∧ ∀ l : List TickInput, l ≠ [] → st.nextFrame < (sched_run st l).nextFrame := by
  refine ⟨?_, sched_tick_nextFrame_lt st i, ?_⟩
  · unfold sched_tick
    simp only
    rw [sched_step_eq_max]
    unfold pyInt
    rw [if_pos havg]
  · intro l hl
    match l with
    | [] => exact absurd rfl hl
    | j :: rest =>
      have h1 := sched_tick_nextFrame_lt st j
      have h2 := sched_run_nextFrame_le rest (sched_tick st j)
      unfold sched_run
      omega

/-- Witness for scheduler_forward_progress at a concrete tick: average
skip 2, delta update fires the catch-up branch. -/
theorem scheduler_forward_progress_witness :
    ((sched_tick ⟨10, 0⟩ ⟨2, 1, 5, 0⟩).nextFrame
      = (10 : Int) + max 1 (⌊(2 : ℚ)⌋ + delta_update ⟨2, 1, 5, 0⟩ 0)
    ∧ (10 : Int) < (sched_tick ⟨10, 0⟩ ⟨2, 1, 5, 0⟩).nextFrame
    ∧ ∀ l : List TickInput, l ≠ [] →
        (10 : Int) < (sched_run ⟨10, 0⟩ l).nextFrame) :=
  scheduler_forward_progress ⟨10, 0⟩ ⟨2, 1, 5, 0⟩ (by decide)

/-- Claim C6: the processing_delta update is characterized exactly by the
two source conditions, given that the miss counter is non-negative (it is
0 or a positive gap by construction in the buffer): the delta is
decremented exactly when the last-added index exceeds the last-requested
index by more than the miss AND the delta exceeds the average frame skip;
it is incremented exactly when the last-added index is below the
last-requested index — in particular the increment branch holds for every
value of the average skip, preserving the asymmetry. -/
theorem delta_update_asymmetry (i : TickInput) (d : Int) (hm : 0 ≤ i.miss) :
    (delta_update i d = d - 1
      ↔ (i.lastRequested + i.miss < i.lastAdded ∧ i.avg < (d : ℚ)))
    ∧ (delta_update i d = d + 1 ↔ i.lastAdded < i.lastRequested) := by
  unfold delta_update
  by_cases h1 : i.lastRequested + i.miss < i.lastAdded ∧ i.avg < (d : ℚ)
  · rw [if_pos h1]
    constructor
    · exact ⟨fun _ => h1, fun _ => rfl⟩
    · constructor
      · intro h; omega
      · intro h; omega
  · rw [if_neg h1]
    by_cases h2 : i.lastAdded < i.lastRequested
    · rw [if_pos h2]
      constructor
      · constructor
        · intro h; omega
        · intro h; exact absurd h h1
      · exact ⟨fun _ => h2, fun _ => rfl⟩
    · rw [if_neg h2]
      constructor
      · constructor
        · intro h; omega
        · intro h; exact absurd h h1
      · constructor
        · intro h; omega
        · intro h; exact absurd h h2

/-- Witness for delta_update_asymmetry at a concrete tick input with both
characterizations checked on the catch-up side. -/
theorem delta_update_asymmetry_witness :
    ((delta_update ⟨2, 1, 5, 0⟩ 0 = 0 - 1
      ↔ ((5 : Int) + 0 < 1 ∧ (2 : ℚ) < ((0 : Int) : ℚ)))
    ∧ (delta_update ⟨2, 1, 5, 0⟩ 0 = 0 + 1 ↔ (1 : Int) < 5)) := by
  have h := delta_update_asymmetry ⟨2, 1, 5, 0⟩ 0 (by decide)
  exact h

/-- Claim C7: SET_QUALITY(q) stores q unchanged, a following GET_QUALITY
returns exactly q, and a following GET_METADATA reports render_resolution
floor(resolution * q / 100) in both dimensions (the source computes
int(resolution * quality / 100) per dimension, which is the floor for
these non-negative percent values). -/
theorem quality_roundtrip (st : ServerState) (q : Nat) (st1 : ServerState) (r : Response)
    (h : server_handle_request st (.setQuality q) = .ok (st1, r)) :
    resp_quality (server_handle_request st1 .getQuality) = some q
    ∧ resp_render (server_handle_request st1 .getMetadata)
        = some (st.resolution.1 * q / 100, st.resolution.2 * q / 100) := by
  have h1 : st1 = { st with scaleQuality := q } := by
    simp only [server_handle_request, Except.ok.injEq, Prod.mk.injEq] at h
    exact h.1.symm
  subst h1
  exact ⟨rfl, rfl⟩

/-- Witness for quality_roundtrip: SET_QUALITY(50) on the sample state,
then GET_QUALITY returns 50 and GET_METADATA halves both dimensions. -/
theorem quality_roundtrip_witness :
    resp_quality
        (server_handle_request { sample_server_state with scaleQuality := 50 } .getQuality)
      = some 50
    ∧ resp_render
        (server_handle_request { sample_server_state with scaleQuality := 50 } .getMetadata)
      = some (sample_server_state.resolution.1 * 50 / 100,
          sample_server_state.resolution.2 * 50 / 100) :=
  quality_roundtrip sample_server_state 50 { sample_server_state with scaleQuality := 50 }
    { ok := true } rfl

/-- Claim C1: when the request handler raises — concretely, a GET_FRAME
request whose position is past the frame count makes
frame_handler.extract_frame raise EOutOfRange inside
FrameProcessingServer._handle_request — the iteration of
ZMQServerAPI._message_handler lands in its except block, which only logs
and sleeps: no response of any kind is sent for the received request,
refuting that every request yields exactly one response with a synthetic
error response on handler failure. -/
theorem handler_exception_drops_reply (st : ServerState) (position : Nat)
    (h : st.fc < position) :
    server_handle_request st (.getFrame position) = .error .outOfRange
    ∧ (message_handler_step (some server_handle_request) st
        (some (.getFrame position))).2 = none := by
  have h1 : extract_frame st.fc st.read position = .error .outOfRange := by
    unfold extract_frame
    rw [if_pos h]
  constructor
  · simp [server_handle_request, h1]
  · simp [message_handler_step, zmq_handle_request, server_handle_request, h1]

/-- Witness for handler_exception_drops_reply: the sample server holds 10
frames; a GET_FRAME(11) request gets no reply. -/
theorem handler_exception_drops_reply_witness :
    server_handle_request sample_server_state (.getFrame 11) = .error .outOfRange
    ∧ (message_handler_step (some server_handle_request) sample_server_state
        (some (.getFrame 11))).2 = none :=
  handler_exception_drops_reply sample_server_state 11 (by decide)

/-- Claim C8: for every frame index strictly greater than the frame count,
CV2VideoHandler.extract_frame raises EOutOfRange, and
FrameProcessingServer._process_frame catches exactly that exception and
returns None — the processing loop's submitted task ends normally instead
of propagating an exception. -/
theorem out_of_range_frame_skipped (fc : Nat) (read : Nat → Option (List Nat)) (n : Nat)
    (h : fc < n) :
    extract_frame fc read n = .error .outOfRange
    ∧ process_frame fc read n = .ok none := by
  have h1 : extract_frame fc read n = .error .outOfRange := by
    unfold extract_frame
    rw [if_pos h]
  exact ⟨h1, by simp [process_frame, h1]⟩

/-- Witness for out_of_range_frame_skipped: a 10-frame source and frame
index 11. -/
theorem out_of_range_frame_skipped_witness :
    extract_frame 10 (fun k => some [k]) 11 = .error .outOfRange
    ∧ process_frame 10 (fun k => some [k]) 11 = .ok none :=
  out_of_range_frame_skipped 10 (fun k => some [k]) 11 (by decide)

/-- Claim C10: BaseImageWriter.create with format png returns the
PNGWriter singleton before the trailing quality assignment, so for every
quality argument the singleton states are unchanged and the PNG writer's
quality reads the same value as before the call. -/
theorem png_create_ignores_quality (inst : WriterInstances) (q : Int) :
    writer_create inst "png" (some q) = .ok true inst
    ∧ (created_instances (writer_create inst "png" (some q))).map
        (fun i => png_get_quality i.png) = some (png_get_quality inst.png) := by
  have h1 : writer_create inst "png" (some q) = .ok true inst := by
    unfold writer_create
    rw [if_pos (by decide)]
  exact ⟨h1, by rw [h1]; rfl⟩
